import Mathlib

/-!
# RTSP stream analyzer

A shallow embedding of `main_back/internal/ffmpeg/C/rtsp_analyzer.c`.

The program is a straight-line procedure around the FFmpeg libraries.  A run is
modelled as the list of observable events it produces, in program order: every
call into libavformat / libavcodec / libavutil, every `printf` chunk written to
stdout and every `fprintf(stderr, ...)` chunk, together with the exit status.
What the libraries answer (the return codes of open and probe, the stream
table, the codec-name registry, the error texts) is an input of the model.
-/

namespace RtspAnalyzer

/-! ## Data model (the fields of the FFmpeg structures the program reads) -/

/-- The `enum AVMediaType` of libavutil. -/
inductive AVMediaType where
  | AVMEDIA_TYPE_UNKNOWN
  | AVMEDIA_TYPE_VIDEO
  | AVMEDIA_TYPE_AUDIO
  | AVMEDIA_TYPE_DATA
  | AVMEDIA_TYPE_SUBTITLE
  | AVMEDIA_TYPE_ATTACHMENT
  | AVMEDIA_TYPE_NB
  deriving DecidableEq, Repr

/-- The `AVRational` of libavutil: numerator and denominator, both C `int`. -/
structure AVRational where
  num : Int
  den : Int
  deriving DecidableEq, Repr

/-- The fields of `AVCodecParameters` read by the program.  `codec_id` is the
numeric value of `enum AVCodecID`, `bit_rate` is an `int64_t`, `width` and
`height` are C `int`. -/
structure AVCodecParameters where
  codec_type : AVMediaType
  codec_id : Int
  bit_rate : Int
  width : Int
  height : Int
  deriving DecidableEq, Repr

/-- The fields of `AVStream` read by the program. -/
structure AVStream where
  codecpar : AVCodecParameters
  avg_frame_rate : AVRational
  deriving DecidableEq, Repr

/-- The fields of `AVFormatContext` read by the program: the stream table.
`nb_streams` is its length. -/
structure AVFormatContext where
  streams : List AVStream
  deriving DecidableEq, Repr

/-- The `nb_streams` field. -/
def AVFormatContext.nb_streams (format_ctx : AVFormatContext) : Nat :=
  format_ctx.streams.length

/-- An `AVDictionary`: the key/value entries in insertion order. -/
abbrev AVDictionary := List (String × String)

/-- What the linked FFmpeg libraries answer, independently of the run: the
compile-time `LIBAVCODEC_VERSION_INT`, the codec-name registry behind
`avcodec_get_name`, and the text `av_strerror` writes into the buffer. -/
structure Lib where
  LIBAVCODEC_VERSION_INT : Nat
  avcodec_get_name : Int → String
  av_strerror : Int → String

/-- An observable step of a run, in program order. -/
inductive Event where
  | av_register_all
  | avformat_network_init
  | av_dict_set (key value : String) (flags : Int)
  | avformat_open_input (url : String) (options : AVDictionary)
  | av_strerror (errnum : Int)
  | avformat_find_stream_info
  | avcodec_get_name (codec_id : Int)
  | av_q2d (a : AVRational)
  | avformat_close_input
  | avformat_network_deinit
  | stdout (chunk : String)
  | stderr (chunk : String)
  deriving DecidableEq, Repr

/-! ## C arithmetic and `printf` conversions -/

/-- Conversion of an integer value to a 32-bit signed `int`: the value modulo
`2^32`, taken in the range `[-2^31, 2^31)`. -/
def toInt32 (x : Int) : Int :=
  (x + 2147483648) % 4294967296 - 2147483648

/-- The `%d` conversion. -/
def printf_d (i : Int) : String :=
  toString i

/-- The `%s` conversion; a null pointer is rendered the way glibc does. -/
def printf_s : Option String → String
  | some s => s
  | none => "(null)"

/-- A `double`: `finite neg man exp` is the number `(-1)^neg * man * 2^exp`. -/
inductive Double where
  | finite (neg : Bool) (man : Nat) (exp : Int)
  | inf (neg : Bool)
  | nan
  deriving DecidableEq, Repr

/-- The `double` constant `0`. -/
def Double.zero : Double :=
  .finite false 0 0

/-- Number of binary digits of `n`, counted with `fuel` halvings. -/
def bitLengthAux : Nat → Nat → Nat
  | 0, _ => 0
  | fuel + 1, n => if n = 0 then 0 else bitLengthAux fuel (n / 2) + 1

/-- Number of binary digits of `n` (`0` for `0`). -/
def bitLength (n : Nat) : Nat :=
  bitLengthAux n n

/-- Rounding to nearest, ties to even, of `(n + s) / 2^d`, where `s` is a
positive amount below one when `sticky` is set and zero otherwise. -/
def roundHalfEven (n d : Nat) (sticky : Bool) : Nat :=
  let q := n / 2 ^ d
  let r := n % 2 ^ d
  if 2 * r > 2 ^ d ∨ (2 * r = 2 ^ d ∧ (sticky = true ∨ q % 2 = 1)) then q + 1 else q

/-- The libavutil inline `av_q2d`: `a.num / (double) a.den`, an IEEE-754
binary64 division of two exactly converted `int`s, rounded to nearest even
(53 significant bits). -/
def av_q2d (a : AVRational) : Double :=
  let neg := decide (a.num < 0) != decide (a.den < 0)
  let n := a.num.natAbs
  let d := a.den.natAbs
  if d = 0 then (if n = 0 then .nan else .inf neg)
  else if n = 0 then .finite neg 0 0
  else
    let k := 55 + bitLength d
    let q := n * 2 ^ k / d
    let sticky := decide (n * 2 ^ k % d ≠ 0)
    let drop := bitLength q - 53
    .finite neg (roundHalfEven q drop sticky) ((drop : Int) - (k : Int))

/-- The `%.2f` conversion: the exact value rounded to two decimals (nearest,
ties to even), printed as integer part, point, two digits. -/
def printf_2f : Double → String
  | .nan => "nan"
  | .inf neg => (if neg then "-" else "") ++ "inf"
  | .finite neg man exp =>
    let h := if 0 ≤ exp then 100 * man * 2 ^ exp.toNat
             else roundHalfEven (100 * man) (-exp).toNat false
    (if neg then "-" else "") ++ toString (h / 100) ++ "." ++
      toString (h % 100 / 10) ++ toString (h % 10)

/-- The macro `AV_VERSION_INT(a, b, c)`: `(a)<<16 | (b)<<8 | (c)`. -/
def AV_VERSION_INT (a b c : Nat) : Nat :=
  a <<< 16 ||| b <<< 8 ||| c

/-- The libavutil `av_dict_set` with `flags = 0`: an entry whose key matches
(ASCII case-insensitively) is dropped, and the new entry is added at the end. -/
def av_dict_set (m : AVDictionary) (key value : String) : AVDictionary :=
  m.filter (fun e => e.1.data.map Char.toLower != key.data.map Char.toLower) ++ [(key, value)]

/-! ## The program -/

/-- Lines 22-25: `double fps = 0;` and the guarded conversion. -/
def frame_rate_fps (avg_frame_rate : AVRational) : Double :=
  if avg_frame_rate.den ≠ 0 ∧ avg_frame_rate.num ≠ 0 then av_q2d avg_frame_rate
  else Double.zero

/-- Lines 30-33: `int bitrate_kbps = 0;` and the guarded division of the
`int64_t` bit rate, stored into an `int`. -/
def bitrate_kbps (bit_rate : Int) : Int :=
  if bit_rate > 0 then toInt32 (Int.tdiv bit_rate 1000) else 0

/-- Lines 38-42: the bit-rate line. -/
def bitrate_line (kbps : Int) : String :=
  if kbps > 0 then "  Bitrate: " ++ printf_d kbps ++ " kbps\n"
  else "  Bitrate: Unknown\n"

/-- The function `display_stream_info` (lines 13-43).  An index outside the
stream table, which `main` never passes, yields no event. -/
def display_stream_info (lib : Lib) (format_ctx : AVFormatContext)
    (stream_index : Nat) : List Event :=
  match format_ctx.streams[stream_index]? with
  | none => []
  | some stream =>
    let codec_params := stream.codecpar
    if codec_params.codec_type ≠ AVMediaType.AVMEDIA_TYPE_VIDEO then []
    else
      let q2d : List Event :=
        if stream.avg_frame_rate.den ≠ 0 ∧ stream.avg_frame_rate.num ≠ 0 then
          [Event.av_q2d stream.avg_frame_rate]
        else []
      let fps := frame_rate_fps stream.avg_frame_rate
      let codec_name := lib.avcodec_get_name codec_params.codec_id
      let kbps := bitrate_kbps codec_params.bit_rate
      q2d ++
        [Event.avcodec_get_name codec_params.codec_id,
         Event.stdout ("  Codec: " ++ printf_s (some codec_name) ++ "\n"),
         Event.stdout ("  Resolution: " ++ printf_d codec_params.width ++ "x" ++
           printf_d codec_params.height ++ "\n"),
         Event.stdout ("  Frame rate: " ++ printf_2f fps ++ " fps\n"),
         Event.stdout (bitrate_line kbps)]

/-- The banner printed at line 90. -/
def banner : String :=
  "\n===== RTSP Stream Analysis =====\n\n"

/-- The function `main` (lines 45-102).  `argv` is the argument vector (`argc`
is its length), `open_ret` the value returned by `avformat_open_input`,
`find_stream_info_ret` the value returned by `avformat_find_stream_info`, and
`streams` the stream table the probe leaves in the format context.  The result
is the event list of the run and the exit status. -/
def main (lib : Lib) (argv : List String) (open_ret find_stream_info_ret : Int)
    (streams : List AVStream) : List Event × Int :=
  match argv with
  | [_, rtsp_url] =>
    let registered : List Event :=
      if lib.LIBAVCODEC_VERSION_INT < AV_VERSION_INT 58 9 100 then [Event.av_register_all]
      else []
    let options : AVDictionary := []
    let options := av_dict_set options "rtsp_transport" "tcp"
    let options := av_dict_set options "max_delay" "500000"
    let options := av_dict_set options "stimeout" "5000000"
    let opening : List Event :=
      registered ++
        [Event.avformat_network_init,
         Event.av_dict_set "rtsp_transport" "tcp" 0,
         Event.av_dict_set "max_delay" "500000" 0,
         Event.av_dict_set "stimeout" "5000000" 0,
         Event.stdout ("Connecting to: " ++ printf_s (some rtsp_url) ++ "\n"),
         Event.avformat_open_input rtsp_url options]
    if open_ret < 0 then
      (opening ++
        [Event.av_strerror open_ret,
         Event.stderr ("Could not open input: " ++
           printf_s (some (lib.av_strerror open_ret)) ++ "\n")], 1)
    else if find_stream_info_ret < 0 then
      (opening ++
        [Event.avformat_find_stream_info,
         Event.av_strerror find_stream_info_ret,
         Event.stderr ("Could not find stream info: " ++
           printf_s (some (lib.av_strerror find_stream_info_ret)) ++ "\n"),
         Event.avformat_close_input], 1)
    else
      let format_ctx : AVFormatContext := ⟨streams⟩
      (opening ++
        [Event.avformat_find_stream_info, Event.stdout banner] ++
        (List.range format_ctx.nb_streams).flatMap (display_stream_info lib format_ctx) ++
        [Event.avformat_close_input, Event.avformat_network_deinit], 0)
  | _ =>
    ([Event.stderr ("Usage: " ++ printf_s argv.head? ++ " <rtsp_url>\n")], 1)

/-! ## Observations on a run -/

/-- The chunks written to stdout, in order. -/
def stdoutChunks (trace : List Event) : List String :=
  trace.filterMap (fun e => match e with | Event.stdout s => some s | _ => none)

/-- The chunks written to stderr, in order. -/
def stderrChunks (trace : List Event) : List String :=
  trace.filterMap (fun e => match e with | Event.stderr s => some s | _ => none)

/-- The bytes written to stdout. -/
def stdoutText (trace : List Event) : String :=
  String.join (stdoutChunks trace)

/-- The calls into the FFmpeg libraries, in order. -/
def libCalls (trace : List Event) : List Event :=
  trace.filter (fun e => match e with | Event.stdout _ => false | Event.stderr _ => false | _ => true)


/-- The bit-rate value as the specification words it: the quotient of the bit
rate by 1000, truncated toward zero and reduced modulo `2^32` into the signed
32-bit range, when the bit rate is positive, and zero otherwise. -/
def kbps_as_specified (b : Int) : Int :=
  if 0 < b then
    let q := Int.tdiv b 1000
    let m := q % 2 ^ 32
    if m < 2 ^ 31 then m else m - 2 ^ 32
  else 0

/-- The codec line of a video stream. -/
def codec_line (lib : Lib) (stream : AVStream) : String :=
  "  Codec: " ++ lib.avcodec_get_name stream.codecpar.codec_id ++ "\n"

/-- The resolution line of a video stream, `WIDTHxHEIGHT`. -/
def resolution_line (stream : AVStream) : String :=
  "  Resolution: " ++ printf_d stream.codecpar.width ++ "x" ++
    printf_d stream.codecpar.height ++ "\n"

/-- The frame-rate line of a video stream. -/
def frame_rate_line (stream : AVStream) : String :=
  "  Frame rate: " ++ printf_2f (frame_rate_fps stream.avg_frame_rate) ++ " fps\n"

/-- The four stdout lines of one video stream: codec, resolution, frame rate
and bit rate. -/
def videoBlock (lib : Lib) (stream : AVStream) : List String :=
  [codec_line lib stream, resolution_line stream, frame_rate_line stream,
   bitrate_line (bitrate_kbps stream.codecpar.bit_rate)]

/-- Whether a stream descriptor has media type video. -/
def isVideo (stream : AVStream) : Bool :=
  decide (stream.codecpar.codec_type = AVMediaType.AVMEDIA_TYPE_VIDEO)

/-- The `Connecting to:` line for a URL. -/
def connecting_line (rtsp_url : String) : String :=
  "Connecting to: " ++ rtsp_url ++ "\n"

/-- The report: what a successful run writes to stdout after the
`Connecting to:` line, as chunks. -/
def reportChunks (lib : Lib) (streams : List AVStream) : List String :=
  banner :: (streams.filter isVideo).flatMap (videoBlock lib)

/-- The events of `main` up to and including the open call. -/
def openingEvents (lib : Lib) (rtsp_url : String) : List Event :=
  (if lib.LIBAVCODEC_VERSION_INT < AV_VERSION_INT 58 9 100 then [Event.av_register_all]
    else []) ++
    [Event.avformat_network_init,
     Event.av_dict_set "rtsp_transport" "tcp" 0,
     Event.av_dict_set "max_delay" "500000" 0,
     Event.av_dict_set "stimeout" "5000000" 0,
     Event.stdout (connecting_line rtsp_url),
     Event.avformat_open_input rtsp_url
       [("rtsp_transport", "tcp"), ("max_delay", "500000"), ("stimeout", "5000000")]]

/-- The events of the stream loop of `main` (lines 93-95). -/
def loopEvents (lib : Lib) (streams : List AVStream) : List Event :=
  (List.range streams.length).flatMap (display_stream_info lib ⟨streams⟩)

/-- Events that `display_stream_info` can produce. -/
def Event.isDisplay : Event → Bool
  | Event.av_q2d _ => true
  | Event.avcodec_get_name _ => true
  | Event.stdout _ => true
  | _ => false

/-- A library instance used to evaluate the program on concrete inputs. -/
def exampleLib : Lib where
  LIBAVCODEC_VERSION_INT := AV_VERSION_INT 60 31 102
  avcodec_get_name := fun id => if id = 27 then "h264" else if id = 86018 then "aac" else "unknown_codec"
  av_strerror := fun e => if e = -111 then "Connection refused" else "Error number " ++ toString e ++ " occurred"

/-- A video stream descriptor with the given frame rate and bit rate. -/
def videoStream (avg_frame_rate : AVRational) (bit_rate : Int) : AVStream :=
  ⟨⟨AVMediaType.AVMEDIA_TYPE_VIDEO, 27, bit_rate, 1920, 1080⟩, avg_frame_rate⟩

/-- An audio stream descriptor. -/
def audioStream : AVStream :=
  ⟨⟨AVMediaType.AVMEDIA_TYPE_AUDIO, 86018, 128000, 0, 0⟩, ⟨0, 0⟩⟩

/-! ## Auxiliary lemmas -/

theorem stdoutChunks_append (t u : List Event) :
    stdoutChunks (t ++ u) = stdoutChunks t ++ stdoutChunks u := by
  simp [stdoutChunks]

theorem display_stream_info_of_video (lib : Lib) (format_ctx : AVFormatContext) (i : Nat)
    (stream : AVStream) (hs : format_ctx.streams[i]? = some stream)
    (hv : stream.codecpar.codec_type = AVMediaType.AVMEDIA_TYPE_VIDEO) :
    display_stream_info lib format_ctx i =
      (if stream.avg_frame_rate.den ≠ 0 ∧ stream.avg_frame_rate.num ≠ 0 then
          [Event.av_q2d stream.avg_frame_rate] else []) ++
        (Event.avcodec_get_name stream.codecpar.codec_id ::
          (videoBlock lib stream).map Event.stdout) := by
  simp [display_stream_info, hs, hv, videoBlock, printf_s, codec_line, resolution_line,
    frame_rate_line]

theorem display_stream_info_of_other (lib : Lib) (format_ctx : AVFormatContext) (i : Nat)
    (stream : AVStream) (hs : format_ctx.streams[i]? = some stream)
    (hv : stream.codecpar.codec_type ≠ AVMediaType.AVMEDIA_TYPE_VIDEO) :
    display_stream_info lib format_ctx i = [] := by
  simp [display_stream_info, hs, hv]

theorem stdoutChunks_map_stdout (l : List String) :
    stdoutChunks (l.map Event.stdout) = l := by
  induction l with
  | nil => rfl
  | cons a l ih =>
    simp only [stdoutChunks] at ih
    simp [stdoutChunks, ih]

theorem stdoutChunks_display_video (lib : Lib) (format_ctx : AVFormatContext) (i : Nat)
    (stream : AVStream) (hs : format_ctx.streams[i]? = some stream)
    (hv : stream.codecpar.codec_type = AVMediaType.AVMEDIA_TYPE_VIDEO) :
    stdoutChunks (display_stream_info lib format_ctx i) = videoBlock lib stream := by
  rw [display_stream_info_of_video lib format_ctx i stream hs hv, stdoutChunks_append]
  have h1 : stdoutChunks (if stream.avg_frame_rate.den ≠ 0 ∧ stream.avg_frame_rate.num ≠ 0 then
          [Event.av_q2d stream.avg_frame_rate] else []) = [] := by
    split <;> rfl
  have h2 : stdoutChunks (Event.avcodec_get_name stream.codecpar.codec_id ::
          (videoBlock lib stream).map Event.stdout) = videoBlock lib stream := by
    have := stdoutChunks_map_stdout (videoBlock lib stream)
    simp only [stdoutChunks] at this ⊢
    simpa using this
  rw [h1, h2, List.nil_append]

/-- No rendering of a kbps value is the text of the `Unknown` line. -/
theorem kbps_line_ne_unknown (s : String) :
    "  Bitrate: " ++ s ++ " kbps\n" ≠ "  Bitrate: Unknown\n" := by
  intro h
  have hd := congrArg String.data h
  simp only [String.data_append] at hd
  have hsuf : " kbps\n".data <:+ "  Bitrate: Unknown\n".data := ⟨_, hd⟩
  exact absurd hsuf (by decide)

theorem toInt32_of_range (x : Int) (h0 : 0 ≤ x) (h1 : x ≤ 2147483647) : toInt32 x = x := by
  unfold toInt32
  omega

theorem tdiv_1000_of_nonneg (b : Int) (h : 0 ≤ b) : Int.tdiv b 1000 = b / 1000 := by
  exact Int.tdiv_eq_ediv h (by decide)

theorem toInt32_eq_specified (q : Int) :
    toInt32 q = (if q % 2 ^ 32 < 2 ^ 31 then q % 2 ^ 32 else q % 2 ^ 32 - 2 ^ 32) := by
  unfold toInt32
  split <;> omega

theorem bitrate_kbps_eq_specified (b : Int) : bitrate_kbps b = kbps_as_specified b := by
  unfold bitrate_kbps kbps_as_specified
  by_cases hb : 0 < b
  · simp only [gt_iff_lt, hb, if_true]
    exact toInt32_eq_specified _
  · simp [hb]

theorem stderrChunks_append (t u : List Event) :
    stderrChunks (t ++ u) = stderrChunks t ++ stderrChunks u := by
  simp [stderrChunks]

theorem main_open_failure (lib : Lib) (prog rtsp_url : String) (open_ret probe_ret : Int)
    (streams : List AVStream) (ho : open_ret < 0) :
    main lib [prog, rtsp_url] open_ret probe_ret streams =
      (openingEvents lib rtsp_url ++
        [Event.av_strerror open_ret,
         Event.stderr ("Could not open input: " ++ lib.av_strerror open_ret ++ "\n")], 1) := by
  simp [main, ho, openingEvents, connecting_line, printf_s, av_dict_set]

theorem main_probe_failure (lib : Lib) (prog rtsp_url : String) (open_ret probe_ret : Int)
    (streams : List AVStream) (ho : ¬ open_ret < 0) (hp : probe_ret < 0) :
    main lib [prog, rtsp_url] open_ret probe_ret streams =
      (openingEvents lib rtsp_url ++
        [Event.avformat_find_stream_info,
         Event.av_strerror probe_ret,
         Event.stderr ("Could not find stream info: " ++ lib.av_strerror probe_ret ++ "\n"),
         Event.avformat_close_input], 1) := by
  simp [main, ho, hp, openingEvents, connecting_line, printf_s, av_dict_set]

theorem main_success (lib : Lib) (prog rtsp_url : String) (open_ret probe_ret : Int)
    (streams : List AVStream) (ho : ¬ open_ret < 0) (hp : ¬ probe_ret < 0) :
    main lib [prog, rtsp_url] open_ret probe_ret streams =
      (openingEvents lib rtsp_url ++
        [Event.avformat_find_stream_info, Event.stdout banner] ++
        loopEvents lib streams ++
        [Event.avformat_close_input, Event.avformat_network_deinit], 0) := by
  simp [main, ho, hp, openingEvents, connecting_line, printf_s, av_dict_set, loopEvents,
    AVFormatContext.nb_streams]

theorem main_usage (lib : Lib) (argv : List String) (open_ret probe_ret : Int)
    (streams : List AVStream) (h : argv.length ≠ 2) :
    main lib argv open_ret probe_ret streams =
      ([Event.stderr ("Usage: " ++ printf_s argv.head? ++ " <rtsp_url>\n")], 1) := by
  match argv, h with
  | [], _ => rfl
  | [_], _ => rfl
  | [_, _], h => exact absurd rfl h
  | _ :: _ :: _ :: _, _ => rfl

theorem display_stream_info_isDisplay (lib : Lib) (format_ctx : AVFormatContext) (i : Nat) :
    ∀ e ∈ display_stream_info lib format_ctx i, e.isDisplay = true := by
  intro e he
  cases hs : format_ctx.streams[i]? with
  | none => simp [display_stream_info, hs] at he
  | some stream =>
    by_cases hv : stream.codecpar.codec_type = AVMediaType.AVMEDIA_TYPE_VIDEO
    · rw [display_stream_info_of_video lib format_ctx i stream hs hv] at he
      rw [List.mem_append, List.mem_cons, List.mem_map] at he
      rcases he with he | he | ⟨s, _, he⟩
      · split at he
        · rw [List.mem_singleton] at he
          subst he
          rfl
        · simp at he
      · subst he
        rfl
      · subst he
        rfl
    · rw [display_stream_info_of_other lib format_ctx i stream hs hv] at he
      simp at he

theorem loopEvents_isDisplay (lib : Lib) (streams : List AVStream) :
    ∀ e ∈ loopEvents lib streams, e.isDisplay = true := by
  intro e he
  unfold loopEvents at he
  rw [List.mem_flatMap] at he
  obtain ⟨i, _, hi⟩ := he
  exact display_stream_info_isDisplay lib _ i e hi

theorem stdoutChunks_display (lib : Lib) (streams : List AVStream) (i : Nat) :
    stdoutChunks (display_stream_info lib ⟨streams⟩ i) =
      (streams[i]?).elim [] (fun stream => if isVideo stream then videoBlock lib stream else []) := by
  cases hs : streams[i]? with
  | none => simp [display_stream_info, hs, stdoutChunks]
  | some stream =>
    by_cases hv : stream.codecpar.codec_type = AVMediaType.AVMEDIA_TYPE_VIDEO
    · rw [stdoutChunks_display_video lib ⟨streams⟩ i stream hs hv]
      simp [isVideo, hv]
    · rw [display_stream_info_of_other lib ⟨streams⟩ i stream hs hv]
      simp [isVideo, hv, stdoutChunks]

theorem range_flatMap_getElem? {α β : Type} (f : α → List β) (l : List α) :
    (List.range l.length).flatMap (fun i => (l[i]?).elim [] f) = l.flatMap f := by
  induction l using List.reverseRecOn with
  | nil => rfl
  | append_singleton l a ih =>
    rw [List.length_append, List.length_singleton, List.range_succ, List.flatMap_append,
      List.flatMap_append]
    congr 1
    · rw [← ih]
      apply List.flatMap_congr
      intro i hi
      rw [List.mem_range] at hi
      rw [List.getElem?_append_left hi]
    · simp

theorem stdoutChunks_flatMap (l : List Nat) (g : Nat → List Event) :
    stdoutChunks (l.flatMap g) = l.flatMap (fun i => stdoutChunks (g i)) := by
  induction l with
  | nil => rfl
  | cons a l ih => simp [List.flatMap_cons, stdoutChunks_append, ih]

theorem flatMap_if_eq_filter {α β : Type} (p : α → Bool) (f : α → List β) (l : List α) :
    l.flatMap (fun a => if p a then f a else []) = (l.filter p).flatMap f := by
  induction l with
  | nil => rfl
  | cons s l ih =>
    by_cases hv : p s = true
    · simp [List.filter_cons, hv, List.flatMap_cons, ih]
    · simp [List.filter_cons, hv, List.flatMap_cons, ih]

theorem stdoutChunks_loopEvents (lib : Lib) (streams : List AVStream) :
    stdoutChunks (loopEvents lib streams) = (streams.filter isVideo).flatMap (videoBlock lib) := by
  unfold loopEvents
  rw [stdoutChunks_flatMap]
  have hfun : (fun i => stdoutChunks (display_stream_info lib ⟨streams⟩ i)) =
      (fun i => (streams[i]?).elim []
        (fun stream => if isVideo stream then videoBlock lib stream else [])) := by
    funext i
    exact stdoutChunks_display lib streams i
  rw [hfun, range_flatMap_getElem?]
  exact flatMap_if_eq_filter isVideo (videoBlock lib) streams

theorem stderrChunks_of_isDisplay (t : List Event) (h : ∀ e ∈ t, e.isDisplay = true) :
    stderrChunks t = [] := by
  induction t with
  | nil => rfl
  | cons e t ih =>
    have he := h e (List.mem_cons_self _ _)
    have ht := ih (fun x hx => h x (List.mem_cons_of_mem _ hx))
    cases e <;> simp_all [stderrChunks, Event.isDisplay]

theorem stdoutChunks_openingEvents (lib : Lib) (rtsp_url : String) :
    stdoutChunks (openingEvents lib rtsp_url) = [connecting_line rtsp_url] := by
  unfold openingEvents
  split <;> rfl

theorem stderrChunks_openingEvents (lib : Lib) (rtsp_url : String) :
    stderrChunks (openingEvents lib rtsp_url) = [] := by
  unfold openingEvents
  split <;> rfl

theorem string_join_cons (a : String) (l : List String) :
    String.join (a :: l) = a ++ String.join l := by
  apply String.ext
  simp [String.data_join, String.data_append]

theorem connecting_line_ne_banner (rtsp_url : String) : connecting_line rtsp_url ≠ banner := by
  intro h
  have hd := congrArg String.data h
  simp [connecting_line, banner, String.data_append] at hd

theorem banner_not_mem_videoBlock (lib : Lib) (stream : AVStream) :
    banner ∉ videoBlock lib stream := by
  intro h
  simp only [videoBlock, List.mem_cons, List.mem_singleton, List.not_mem_nil, or_false] at h
  rcases h with h | h | h | h
  · have hd := congrArg String.data h
    simp [codec_line, banner, String.data_append] at hd
  · have hd := congrArg String.data h
    simp [resolution_line, banner, String.data_append] at hd
  · have hd := congrArg String.data h
    simp [frame_rate_line, banner, String.data_append] at hd
  · have hd := congrArg String.data h
    unfold bitrate_line at hd
    split at hd <;> simp [banner, String.data_append] at hd

theorem banner_not_mem_blocks (lib : Lib) (l : List AVStream) :
    banner ∉ l.flatMap (videoBlock lib) := by
  intro h
  rw [List.mem_flatMap] at h
  obtain ⟨s, _, hs⟩ := h
  exact banner_not_mem_videoBlock lib s hs

theorem stdoutChunks_main_success (lib : Lib) (prog rtsp_url : String)
    (open_ret probe_ret : Int) (streams : List AVStream)
    (ho : ¬ open_ret < 0) (hp : ¬ probe_ret < 0) :
    stdoutChunks (main lib [prog, rtsp_url] open_ret probe_ret streams).1 =
      connecting_line rtsp_url :: reportChunks lib streams := by
  rw [main_success lib prog rtsp_url open_ret probe_ret streams ho hp]
  simp only [stdoutChunks_append, stdoutChunks_openingEvents, stdoutChunks_loopEvents]
  simp [stdoutChunks, reportChunks]

theorem close_not_mem_openingEvents (lib : Lib) (rtsp_url : String) :
    Event.avformat_close_input ∉ openingEvents lib rtsp_url := by
  unfold openingEvents
  split <;> simp

theorem close_not_mem_loopEvents (lib : Lib) (streams : List AVStream) :
    Event.avformat_close_input ∉ loopEvents lib streams := by
  intro h
  have := loopEvents_isDisplay lib streams _ h
  simp [Event.isDisplay] at this

/-! ## The bit-rate line -/

/-- C1, as stated, fails: a video stream with the positive bit rate 500 is
reported with the line `Bitrate: Unknown`, not with `Bitrate: 0 kbps` (0 being
the floor of 500/1000). -/
theorem bitrate_positive_below_1000_prints_unknown :
    (0 : Int) < 500 ∧
    stdoutChunks (display_stream_info exampleLib ⟨[videoStream ⟨25, 1⟩ 500]⟩ 0) =
      ["  Codec: h264\n", "  Resolution: 1920x1080\n", "  Frame rate: 25.00 fps\n",
       "  Bitrate: Unknown\n"] ∧
    "  Bitrate: Unknown\n" ≠ "  Bitrate: " ++ printf_d (500 / 1000) ++ " kbps\n" := by
  refine ⟨by decide, by decide, by decide⟩

/-- C1, amended: for a video stream whose bit rate in kbps fits a 32-bit signed
`int`, the fourth stdout line of `display_stream_info` is
`Bitrate: floor(bit_rate/1000) kbps` when the bit rate is at least 1000, and
`Bitrate: Unknown` when it is below 1000 (zero and negative values included). -/
theorem display_stream_info_bitrate (lib : Lib) (format_ctx : AVFormatContext) (i : Nat)
    (stream : AVStream) (hs : format_ctx.streams[i]? = some stream)
    (hv : stream.codecpar.codec_type = AVMediaType.AVMEDIA_TYPE_VIDEO)
    (hfit : stream.codecpar.bit_rate / 1000 ≤ 2147483647) :
    ∃ codec resolution frame_rate,
      stdoutChunks (display_stream_info lib format_ctx i) =
        [codec, resolution, frame_rate,
         if 1000 ≤ stream.codecpar.bit_rate then
           "  Bitrate: " ++ printf_d (stream.codecpar.bit_rate / 1000) ++ " kbps\n"
         else "  Bitrate: Unknown\n"] := by
  rw [stdoutChunks_display_video lib format_ctx i stream hs hv]
  refine ⟨codec_line lib stream, resolution_line stream, frame_rate_line stream, ?_⟩
  unfold videoBlock
  congr 3
  unfold bitrate_line bitrate_kbps
  by_cases hb : 1000 ≤ stream.codecpar.bit_rate
  · have hpos : stream.codecpar.bit_rate > 0 := by omega
    have hq : Int.tdiv stream.codecpar.bit_rate 1000 = stream.codecpar.bit_rate / 1000 :=
      tdiv_1000_of_nonneg _ (by omega)
    have hq0 : 0 < stream.codecpar.bit_rate / 1000 := by omega
    rw [if_pos hpos, hq, toInt32_of_range _ (by omega) hfit, if_pos hq0, if_pos hb]
  · rw [if_neg hb]
    by_cases hpos : stream.codecpar.bit_rate > 0
    · have hq : Int.tdiv stream.codecpar.bit_rate 1000 = stream.codecpar.bit_rate / 1000 :=
        tdiv_1000_of_nonneg _ (by omega)
      have hq0 : stream.codecpar.bit_rate / 1000 = 0 := by omega
      rw [if_pos hpos, hq, hq0]
      rfl
    · rw [if_neg hpos]
      rfl

/-- Scenario C: a bit rate of 2,000,000 gives `Bitrate: 2000 kbps`. -/
theorem display_stream_info_bitrate_witness :
    (⟨[videoStream ⟨30000, 1001⟩ 2000000]⟩ : AVFormatContext).streams[0]? =
        some (videoStream ⟨30000, 1001⟩ 2000000) ∧
    (videoStream ⟨30000, 1001⟩ 2000000).codecpar.bit_rate / 1000 ≤ 2147483647 ∧
    ∃ codec resolution frame_rate,
      stdoutChunks (display_stream_info exampleLib ⟨[videoStream ⟨30000, 1001⟩ 2000000]⟩ 0) =
        [codec, resolution, frame_rate,
         if 1000 ≤ (videoStream ⟨30000, 1001⟩ 2000000).codecpar.bit_rate then
           "  Bitrate: " ++ printf_d ((videoStream ⟨30000, 1001⟩ 2000000).codecpar.bit_rate / 1000)
             ++ " kbps\n"
         else "  Bitrate: Unknown\n"] :=
  ⟨rfl, by decide,
    display_stream_info_bitrate exampleLib ⟨[videoStream ⟨30000, 1001⟩ 2000000]⟩ 0
      (videoStream ⟨30000, 1001⟩ 2000000) rfl rfl (by decide)⟩

/-- C10: for every video stream with bit rate `b`, the fourth stdout line of
`display_stream_info` is decided by `k`, the value the specification describes
(`b / 1000` truncated toward zero and wrapped into a signed 32-bit `int` when
`b > 0`, zero otherwise): the line is `Bitrate: k kbps` exactly when `k > 0`
and `Bitrate: Unknown` exactly when not.  Every `b` from 1 to 999 gives
`Unknown`, and for `0 < b` with `b / 1000 ≤ 2^31 - 1` the line is `Unknown` if
and only if `b < 1000`. -/
theorem display_stream_info_kbps (lib : Lib) (format_ctx : AVFormatContext) (i : Nat)
    (stream : AVStream) (hs : format_ctx.streams[i]? = some stream)
    (hv : stream.codecpar.codec_type = AVMediaType.AVMEDIA_TYPE_VIDEO) :
    ∃ codec resolution frame_rate line,
      stdoutChunks (display_stream_info lib format_ctx i) =
        [codec, resolution, frame_rate, line] ∧
      (line = "  Bitrate: " ++ printf_d (kbps_as_specified stream.codecpar.bit_rate) ++ " kbps\n"
        ↔ kbps_as_specified stream.codecpar.bit_rate > 0) ∧
      (line = "  Bitrate: Unknown\n" ↔ ¬ kbps_as_specified stream.codecpar.bit_rate > 0) ∧
      (1 ≤ stream.codecpar.bit_rate → stream.codecpar.bit_rate ≤ 999 →
        line = "  Bitrate: Unknown\n") ∧
      (0 < stream.codecpar.bit_rate → stream.codecpar.bit_rate / 1000 ≤ 2 ^ 31 - 1 →
        (line = "  Bitrate: Unknown\n" ↔ stream.codecpar.bit_rate < 1000)) := by
  rw [stdoutChunks_display_video lib format_ctx i stream hs hv]
  refine ⟨codec_line lib stream, resolution_line stream, frame_rate_line stream,
    bitrate_line (bitrate_kbps stream.codecpar.bit_rate), rfl, ?_, ?_, ?_, ?_⟩
  · rw [bitrate_kbps_eq_specified]
    unfold bitrate_line
    constructor
    · intro h
      by_contra hk
      rw [if_neg hk] at h
      exact kbps_line_ne_unknown _ h.symm
    · intro hk
      rw [if_pos hk]
  · rw [bitrate_kbps_eq_specified]
    unfold bitrate_line
    constructor
    · intro h hk
      rw [if_pos hk] at h
      exact kbps_line_ne_unknown _ h
    · intro hk
      rw [if_neg hk]
  · intro h1 h999
    have hq : Int.tdiv stream.codecpar.bit_rate 1000 = stream.codecpar.bit_rate / 1000 :=
      tdiv_1000_of_nonneg _ (by omega)
    have hq0 : stream.codecpar.bit_rate / 1000 = 0 := by omega
    unfold bitrate_line bitrate_kbps
    rw [if_pos (by omega : stream.codecpar.bit_rate > 0), hq, hq0]
    rfl
  · intro hpos hfit
    have hq : Int.tdiv stream.codecpar.bit_rate 1000 = stream.codecpar.bit_rate / 1000 :=
      tdiv_1000_of_nonneg _ (by omega)
    unfold bitrate_line bitrate_kbps
    rw [if_pos hpos, hq, toInt32_of_range _ (by omega) (by omega)]
    constructor
    · intro h
      by_contra hb
      rw [if_pos (by omega)] at h
      exact kbps_line_ne_unknown _ h
    · intro hb
      rw [if_neg (by omega)]

/-- A stream with bit rate 500 (between 1 and 999) is reported as `Unknown`. -/
theorem display_stream_info_kbps_witness :
    ∃ codec resolution frame_rate line,
      stdoutChunks (display_stream_info exampleLib ⟨[videoStream ⟨25, 1⟩ 500]⟩ 0) =
        [codec, resolution, frame_rate, line] ∧ line = "  Bitrate: Unknown\n" := by
  obtain ⟨c, r, f, l, h, _, _, h3, _⟩ :=
    display_stream_info_kbps exampleLib ⟨[videoStream ⟨25, 1⟩ 500]⟩ 0 (videoStream ⟨25, 1⟩ 500)
      rfl rfl
  exact ⟨c, r, f, l, h, h3 (by decide) (by decide)⟩

/-! ## The frame-rate line -/

/-- C7: for a video stream whose average frame rate has a zero numerator or a
zero denominator, the third stdout line of `display_stream_info` is exactly
`  Frame rate: 0.00 fps` and `av_q2d` is not called; for any video stream,
`av_q2d` is called only on the stream's own rational and only when numerator
and denominator are both non-zero. -/
theorem display_stream_info_degenerate_frame_rate (lib : Lib) (format_ctx : AVFormatContext)
    (i : Nat) (stream : AVStream) (hs : format_ctx.streams[i]? = some stream)
    (hv : stream.codecpar.codec_type = AVMediaType.AVMEDIA_TYPE_VIDEO) :
    ((stream.avg_frame_rate.num = 0 ∨ stream.avg_frame_rate.den = 0) →
      (∃ codec resolution bitrate,
        stdoutChunks (display_stream_info lib format_ctx i) =
          [codec, resolution, "  Frame rate: 0.00 fps\n", bitrate]) ∧
      ∀ a, Event.av_q2d a ∉ display_stream_info lib format_ctx i) ∧
    (∀ a, Event.av_q2d a ∈ display_stream_info lib format_ctx i →
      a = stream.avg_frame_rate ∧ a.num ≠ 0 ∧ a.den ≠ 0) := by
  constructor
  · intro hz
    have hg : ¬ (stream.avg_frame_rate.den ≠ 0 ∧ stream.avg_frame_rate.num ≠ 0) := by
      rintro ⟨hd, hn⟩
      rcases hz with h | h
      · exact hn h
      · exact hd h
    constructor
    · rw [stdoutChunks_display_video lib format_ctx i stream hs hv]
      refine ⟨codec_line lib stream, resolution_line stream,
        bitrate_line (bitrate_kbps stream.codecpar.bit_rate), ?_⟩
      unfold videoBlock frame_rate_line frame_rate_fps
      rw [if_neg hg]
      rfl
    · intro a ha
      rw [display_stream_info_of_video lib format_ctx i stream hs hv, if_neg hg] at ha
      simp at ha
  · intro a ha
    rw [display_stream_info_of_video lib format_ctx i stream hs hv] at ha
    by_cases hg : stream.avg_frame_rate.den ≠ 0 ∧ stream.avg_frame_rate.num ≠ 0
    · rw [if_pos hg] at ha
      simp at ha
      subst ha
      exact ⟨rfl, hg.2, hg.1⟩
    · rw [if_neg hg] at ha
      simp at ha

/-- A video stream with frame rate 0/0 prints `  Frame rate: 0.00 fps`. -/
theorem display_stream_info_degenerate_frame_rate_witness :
    (∃ codec resolution bitrate,
      stdoutChunks (display_stream_info exampleLib ⟨[videoStream ⟨0, 0⟩ 0]⟩ 0) =
        [codec, resolution, "  Frame rate: 0.00 fps\n", bitrate]) ∧
    ∀ a, Event.av_q2d a ∉ display_stream_info exampleLib ⟨[videoStream ⟨0, 0⟩ 0]⟩ 0 :=
  (display_stream_info_degenerate_frame_rate exampleLib ⟨[videoStream ⟨0, 0⟩ 0]⟩ 0
    (videoStream ⟨0, 0⟩ 0) rfl rfl).1 (Or.inl rfl)

/-! ## Exit paths of `main` -/

/-- C2, evaluated on the code: when the open call fails (return value -111),
and likewise when the probe fails, the run performs `avformat_network_init`
once and `avformat_network_deinit` never, and exits with status 1; only the
successful run pairs the two calls. -/
theorem network_deinit_missing_on_failure_paths :
    (main exampleLib ["rtsp_analyzer", "rtsp://192.0.2.1/live"] (-111) 0 []).2 = 1 ∧
    (main exampleLib ["rtsp_analyzer", "rtsp://192.0.2.1/live"] (-111) 0 []).1.count
      Event.avformat_network_init = 1 ∧
    (main exampleLib ["rtsp_analyzer", "rtsp://192.0.2.1/live"] (-111) 0 []).1.count
      Event.avformat_network_deinit = 0 ∧
    (main exampleLib ["rtsp_analyzer", "rtsp://192.0.2.1/live"] 0 (-1) []).1.count
      Event.avformat_network_init = 1 ∧
    (main exampleLib ["rtsp_analyzer", "rtsp://192.0.2.1/live"] 0 (-1) []).1.count
      Event.avformat_network_deinit = 0 ∧
    (main exampleLib ["rtsp_analyzer", "rtsp://192.0.2.1/live"] 0 0 []).1.count
      Event.avformat_network_init = 1 ∧
    (main exampleLib ["rtsp_analyzer", "rtsp://192.0.2.1/live"] 0 0 []).1.count
      Event.avformat_network_deinit = 1 := by
  decide

/-- C4: when the argument count is not 2, `main` writes the single usage line
`Usage: <argv[0]> <rtsp_url>` to stderr, returns 1, writes nothing to stdout
and calls no library function. -/
theorem main_bad_argument_count (lib : Lib) (argv : List String) (open_ret probe_ret : Int)
    (streams : List AVStream) (hargc : argv.length ≠ 2) :
    stderrChunks (main lib argv open_ret probe_ret streams).1 =
        ["Usage: " ++ printf_s argv.head? ++ " <rtsp_url>\n"] ∧
    (∀ prog rest, argv = prog :: rest →
      stderrChunks (main lib argv open_ret probe_ret streams).1 =
        ["Usage: " ++ prog ++ " <rtsp_url>\n"]) ∧
    (main lib argv open_ret probe_ret streams).2 = 1 ∧
    stdoutChunks (main lib argv open_ret probe_ret streams).1 = [] ∧
    libCalls (main lib argv open_ret probe_ret streams).1 = [] := by
  rw [main_usage lib argv open_ret probe_ret streams hargc]
  refine ⟨rfl, ?_, rfl, rfl, rfl⟩
  intro prog rest h
  subst h
  rfl

/-- Scenario A: no argument supplied. -/
theorem main_bad_argument_count_witness :
    ["rtsp_analyzer"].length ≠ 2 ∧
    stderrChunks (main exampleLib ["rtsp_analyzer"] 0 0 []).1 =
        ["Usage: rtsp_analyzer <rtsp_url>\n"] ∧
    (main exampleLib ["rtsp_analyzer"] 0 0 []).2 = 1 ∧
    stdoutChunks (main exampleLib ["rtsp_analyzer"] 0 0 []).1 = [] ∧
    libCalls (main exampleLib ["rtsp_analyzer"] 0 0 []).1 = [] :=
  have h := main_bad_argument_count exampleLib ["rtsp_analyzer"] 0 0 [] (by decide)
  ⟨by decide, h.1, h.2.2.1, h.2.2.2.1, h.2.2.2.2⟩

/-- C5: in every run with one argument the trace is the opening events, which
end with the open call and contain no `avformat_close_input`, followed by a
remainder in which `avformat_close_input` occurs exactly once when the open
succeeded (whether or not the probe then fails) and not at all when the open
failed. -/
theorem session_released_exactly_once (lib : Lib) (prog rtsp_url : String)
    (open_ret probe_ret : Int) (streams : List AVStream) :
    ∃ rest,
      (main lib [prog, rtsp_url] open_ret probe_ret streams).1 =
        openingEvents lib rtsp_url ++ rest ∧
      (openingEvents lib rtsp_url).getLast? =
        some (Event.avformat_open_input rtsp_url
          [("rtsp_transport", "tcp"), ("max_delay", "500000"), ("stimeout", "5000000")]) ∧
      Event.avformat_close_input ∉ openingEvents lib rtsp_url ∧
      rest.count Event.avformat_close_input = if open_ret < 0 then 0 else 1 := by
  have hlast : (openingEvents lib rtsp_url).getLast? =
      some (Event.avformat_open_input rtsp_url
        [("rtsp_transport", "tcp"), ("max_delay", "500000"), ("stimeout", "5000000")]) := by
    unfold openingEvents
    split <;> rfl
  by_cases ho : open_ret < 0
  · refine ⟨_, congrArg Prod.fst (main_open_failure lib prog rtsp_url open_ret probe_ret streams ho),
      hlast, close_not_mem_openingEvents lib rtsp_url, ?_⟩
    simp [ho]
  · by_cases hp : probe_ret < 0
    · refine ⟨_, congrArg Prod.fst
        (main_probe_failure lib prog rtsp_url open_ret probe_ret streams ho hp),
        hlast, close_not_mem_openingEvents lib rtsp_url, ?_⟩
      simp [ho]
    · refine ⟨[Event.avformat_find_stream_info, Event.stdout banner] ++ loopEvents lib streams ++
          [Event.avformat_close_input, Event.avformat_network_deinit], ?_,
        hlast, close_not_mem_openingEvents lib rtsp_url, ?_⟩
      · rw [main_success lib prog rtsp_url open_ret probe_ret streams ho hp]
        simp
      · have h0 : (loopEvents lib streams).count Event.avformat_close_input = 0 :=
          List.count_eq_zero.mpr (close_not_mem_loopEvents lib streams)
        simp [ho, List.count_append, h0]

/-- C6: in a run with one argument, a failing open or a failing probe writes
exactly one chunk to stderr (`Could not open input: ...` or
`Could not find stream info: ...`, carrying the library's diagnostic), returns
1 and leaves stdout with the `Connecting to:` line alone; when both succeed
stderr stays empty, stdout carries the banner and the report, and the status
is 0.  The banner is on stdout if and only if open and probe both succeeded. -/
theorem main_failure_reporting (lib : Lib) (prog rtsp_url : String)
    (open_ret probe_ret : Int) (streams : List AVStream) :
    stderrChunks (main lib [prog, rtsp_url] open_ret probe_ret streams).1 =
      (if open_ret < 0 then ["Could not open input: " ++ lib.av_strerror open_ret ++ "\n"]
       else if probe_ret < 0 then
         ["Could not find stream info: " ++ lib.av_strerror probe_ret ++ "\n"]
       else []) ∧
    (main lib [prog, rtsp_url] open_ret probe_ret streams).2 =
      (if open_ret < 0 ∨ probe_ret < 0 then 1 else 0) ∧
    stdoutChunks (main lib [prog, rtsp_url] open_ret probe_ret streams).1 =
      (if open_ret < 0 ∨ probe_ret < 0 then ["Connecting to: " ++ rtsp_url ++ "\n"]
       else ("Connecting to: " ++ rtsp_url ++ "\n") :: banner ::
         (streams.filter isVideo).flatMap (videoBlock lib)) ∧
    (banner ∈ stdoutChunks (main lib [prog, rtsp_url] open_ret probe_ret streams).1 ↔
      0 ≤ open_ret ∧ 0 ≤ probe_ret) := by
  have hcb := connecting_line_ne_banner rtsp_url
  unfold connecting_line at hcb
  by_cases ho : open_ret < 0
  · rw [main_open_failure lib prog rtsp_url open_ret probe_ret streams ho]
    simp only [stderrChunks_append, stdoutChunks_append, stderrChunks_openingEvents,
      stdoutChunks_openingEvents, connecting_line]
    refine ⟨by simp [ho, stderrChunks], by simp [ho], by simp [ho, stdoutChunks], ?_⟩
    simp only [stdoutChunks, List.filterMap_cons, List.filterMap_nil, List.append_nil,
      List.mem_singleton]
    constructor
    · intro h
      exact absurd h.symm hcb
    · intro h
      omega
  · by_cases hp : probe_ret < 0
    · rw [main_probe_failure lib prog rtsp_url open_ret probe_ret streams ho hp]
      simp only [stderrChunks_append, stdoutChunks_append, stderrChunks_openingEvents,
        stdoutChunks_openingEvents, connecting_line]
      refine ⟨by simp [ho, hp, stderrChunks], by simp [hp], by simp [hp, stdoutChunks], ?_⟩
      simp only [stdoutChunks, List.filterMap_cons, List.filterMap_nil, List.append_nil,
        List.mem_singleton]
      constructor
      · intro h
        exact absurd h.symm hcb
      · intro h
        omega
    · have hout := stdoutChunks_main_success lib prog rtsp_url open_ret probe_ret streams ho hp
      rw [hout]
      rw [main_success lib prog rtsp_url open_ret probe_ret streams ho hp]
      have herr : stderrChunks (loopEvents lib streams) = [] :=
        stderrChunks_of_isDisplay _ (loopEvents_isDisplay lib streams)
      simp only [stderrChunks_append, stderrChunks_openingEvents, herr]
      refine ⟨by simp [ho, hp, stderrChunks], by simp [ho, hp],
        by simp [ho, hp, connecting_line, reportChunks], ?_⟩
      constructor
      · intro _
        omega
      · intro _
        simp [reportChunks]

/-- C8: in every run with one argument, whatever the URL and whatever the
library answers, the three `av_dict_set` calls (rtsp_transport=tcp,
max_delay=500000, stimeout=5000000) come before the open call, the open call
receives exactly these three entries, and no other dictionary or open call
occurs in the run. -/
theorem open_options_fixed (lib : Lib) (prog rtsp_url : String)
    (open_ret probe_ret : Int) (streams : List AVStream) :
    ∃ before after,
      (main lib [prog, rtsp_url] open_ret probe_ret streams).1 =
        before ++
          [Event.av_dict_set "rtsp_transport" "tcp" 0,
           Event.av_dict_set "max_delay" "500000" 0,
           Event.av_dict_set "stimeout" "5000000" 0,
           Event.stdout ("Connecting to: " ++ rtsp_url ++ "\n"),
           Event.avformat_open_input rtsp_url
             [("rtsp_transport", "tcp"), ("max_delay", "500000"), ("stimeout", "5000000")]] ++
          after ∧
      (∀ e ∈ before ++ after,
        (∀ key value flags, e ≠ Event.av_dict_set key value flags) ∧
        (∀ url options, e ≠ Event.avformat_open_input url options)) := by
  have hopen : openingEvents lib rtsp_url =
      ((if lib.LIBAVCODEC_VERSION_INT < AV_VERSION_INT 58 9 100 then [Event.av_register_all]
        else []) ++ [Event.avformat_network_init]) ++
        [Event.av_dict_set "rtsp_transport" "tcp" 0,
         Event.av_dict_set "max_delay" "500000" 0,
         Event.av_dict_set "stimeout" "5000000" 0,
         Event.stdout ("Connecting to: " ++ rtsp_url ++ "\n"),
         Event.avformat_open_input rtsp_url
           [("rtsp_transport", "tcp"), ("max_delay", "500000"), ("stimeout", "5000000")]] := by
    simp [openingEvents, connecting_line]
  have hbefore : ∀ e ∈ (if lib.LIBAVCODEC_VERSION_INT < AV_VERSION_INT 58 9 100 then
        [Event.av_register_all] else []) ++ [Event.avformat_network_init],
      (∀ key value flags, e ≠ Event.av_dict_set key value flags) ∧
      (∀ url options, e ≠ Event.avformat_open_input url options) := by
    intro e he
    split at he
    · simp at he
      rcases he with he | he <;> subst he <;> simp
    · simp at he
      subst he
      simp
  by_cases ho : open_ret < 0
  · refine ⟨(if lib.LIBAVCODEC_VERSION_INT < AV_VERSION_INT 58 9 100 then
        [Event.av_register_all] else []) ++ [Event.avformat_network_init],
      [Event.av_strerror open_ret,
       Event.stderr ("Could not open input: " ++ lib.av_strerror open_ret ++ "\n")], ?_, ?_⟩
    · rw [main_open_failure lib prog rtsp_url open_ret probe_ret streams ho, hopen]
    · intro e he
      rw [List.mem_append] at he
      rcases he with he | he
      · exact hbefore e he
      · simp at he
        rcases he with he | he <;> subst he <;> simp
  · by_cases hp : probe_ret < 0
    · refine ⟨(if lib.LIBAVCODEC_VERSION_INT < AV_VERSION_INT 58 9 100 then
        [Event.av_register_all] else []) ++ [Event.avformat_network_init],
        [Event.avformat_find_stream_info,
         Event.av_strerror probe_ret,
         Event.stderr ("Could not find stream info: " ++ lib.av_strerror probe_ret ++ "\n"),
         Event.avformat_close_input], ?_, ?_⟩
      · rw [main_probe_failure lib prog rtsp_url open_ret probe_ret streams ho hp, hopen]
      · intro e he
        rw [List.mem_append] at he
        rcases he with he | he
        · exact hbefore e he
        · simp at he
          rcases he with he | he | he | he <;> subst he <;> simp
    · refine ⟨(if lib.LIBAVCODEC_VERSION_INT < AV_VERSION_INT 58 9 100 then
        [Event.av_register_all] else []) ++ [Event.avformat_network_init],
          [Event.avformat_find_stream_info, Event.stdout banner] ++
          loopEvents lib streams ++
          [Event.avformat_close_input, Event.avformat_network_deinit], ?_, ?_⟩
      · rw [main_success lib prog rtsp_url open_ret probe_ret streams ho hp, hopen]
        simp
      · intro e he
        rw [List.mem_append] at he
        rcases he with he | he
        · exact hbefore e he
        · simp only [List.mem_append, List.mem_cons, List.mem_singleton, List.not_mem_nil,
            or_false] at he
          rcases he with ((he | he) | he) | (he | he)
          · subst he; simp
          · subst he; simp
          · have hd := loopEvents_isDisplay lib streams e he
            constructor
            · intro key value flags h
              subst h
              simp [Event.isDisplay] at hd
            · intro url options h
              subst h
              simp [Event.isDisplay] at hd
          · subst he; simp
          · subst he; simp

/-! ## The report of a successful run -/

/-- C3: in a successful run (open and probe both return a non-negative value)
stdout is the `Connecting to:` line, then the banner, then the four-line blocks
of exactly the video streams, in stream-table order; the banner occurs once;
the bytes on stdout are the concatenation of these chunks. -/
theorem main_success_report (lib : Lib) (prog rtsp_url : String)
    (open_ret probe_ret : Int) (streams : List AVStream)
    (ho : 0 ≤ open_ret) (hp : 0 ≤ probe_ret) :
    stdoutChunks (main lib [prog, rtsp_url] open_ret probe_ret streams).1 =
      ("Connecting to: " ++ rtsp_url ++ "\n") :: banner ::
        (streams.filter (fun s => s.codecpar.codec_type = AVMediaType.AVMEDIA_TYPE_VIDEO)).flatMap
          (fun s =>
            ["  Codec: " ++ lib.avcodec_get_name s.codecpar.codec_id ++ "\n",
             "  Resolution: " ++ printf_d s.codecpar.width ++ "x" ++
               printf_d s.codecpar.height ++ "\n",
             "  Frame rate: " ++ printf_2f (frame_rate_fps s.avg_frame_rate) ++ " fps\n",
             bitrate_line (bitrate_kbps s.codecpar.bit_rate)]) ∧
    (stdoutChunks (main lib [prog, rtsp_url] open_ret probe_ret streams).1).count banner = 1 ∧
    stdoutText (main lib [prog, rtsp_url] open_ret probe_ret streams).1 =
      "Connecting to: " ++ rtsp_url ++ "\n" ++ banner ++
        String.join ((streams.filter isVideo).flatMap (videoBlock lib)) := by
  have hout := stdoutChunks_main_success lib prog rtsp_url open_ret probe_ret streams
    (not_lt.mpr ho) (not_lt.mpr hp)
  refine ⟨?_, ?_, ?_⟩
  · rw [hout]
    rfl
  · rw [hout, reportChunks, List.count_cons, List.count_cons_self,
      List.count_eq_zero.mpr (banner_not_mem_blocks lib _)]
    have hne : (connecting_line rtsp_url == banner) = false :=
      beq_false_of_ne (connecting_line_ne_banner rtsp_url)
    simp [hne]
  · unfold stdoutText
    rw [hout, reportChunks, string_join_cons, string_join_cons, connecting_line]
    simp only [String.append_assoc]

/-- Scenario E: a table of one audio stream and one video stream yields one
block, for the video stream. -/
theorem main_success_report_witness :
    stdoutChunks
        (main exampleLib ["rtsp_analyzer", "rtsp://192.0.2.1/live"] 0 0
          [audioStream, videoStream ⟨30000, 1001⟩ 2000000]).1 =
      ["Connecting to: rtsp://192.0.2.1/live\n", "\n===== RTSP Stream Analysis =====\n\n",
       "  Codec: h264\n", "  Resolution: 1920x1080\n", "  Frame rate: 29.97 fps\n",
       "  Bitrate: 2000 kbps\n"] :=
  (main_success_report exampleLib "rtsp_analyzer" "rtsp://192.0.2.1/live" 0 0
    [audioStream, videoStream ⟨30000, 1001⟩ 2000000] (by decide) (by decide)).1.trans (by decide)

/-- C9: two successful runs over the same stream table, with any two URLs (and
any program names and non-negative return codes), write the same stdout apart
from the first `Connecting to: <url>` line: the same chunks after the first,
and the same bytes after that line. -/
theorem report_independent_of_url (lib : Lib) (prog₁ url₁ prog₂ url₂ : String)
    (open_ret₁ probe_ret₁ open_ret₂ probe_ret₂ : Int) (streams : List AVStream)
    (ho₁ : 0 ≤ open_ret₁) (hp₁ : 0 ≤ probe_ret₁) (ho₂ : 0 ≤ open_ret₂) (hp₂ : 0 ≤ probe_ret₂) :
    (stdoutChunks (main lib [prog₁, url₁] open_ret₁ probe_ret₁ streams).1).head? =
      some ("Connecting to: " ++ url₁ ++ "\n") ∧
    (stdoutChunks (main lib [prog₂, url₂] open_ret₂ probe_ret₂ streams).1).head? =
      some ("Connecting to: " ++ url₂ ++ "\n") ∧
    (stdoutChunks (main lib [prog₁, url₁] open_ret₁ probe_ret₁ streams).1).tail =
      (stdoutChunks (main lib [prog₂, url₂] open_ret₂ probe_ret₂ streams).1).tail ∧
    ∃ report,
      stdoutText (main lib [prog₁, url₁] open_ret₁ probe_ret₁ streams).1 =
        "Connecting to: " ++ url₁ ++ "\n" ++ report ∧
      stdoutText (main lib [prog₂, url₂] open_ret₂ probe_ret₂ streams).1 =
        "Connecting to: " ++ url₂ ++ "\n" ++ report := by
  have h₁ := stdoutChunks_main_success lib prog₁ url₁ open_ret₁ probe_ret₁ streams
    (not_lt.mpr ho₁) (not_lt.mpr hp₁)
  have h₂ := stdoutChunks_main_success lib prog₂ url₂ open_ret₂ probe_ret₂ streams
    (not_lt.mpr ho₂) (not_lt.mpr hp₂)
  refine ⟨?_, ?_, ?_, String.join (reportChunks lib streams), ?_, ?_⟩
  · rw [h₁]
    rfl
  · rw [h₂]
    rfl
  · rw [h₁, h₂]
    rfl
  · unfold stdoutText
    rw [h₁, string_join_cons]
    rfl
  · unfold stdoutText
    rw [h₂, string_join_cons]
    rfl

/-- Two runs against different URLs over the same one-stream table. -/
theorem report_independent_of_url_witness :
    (stdoutChunks (main exampleLib ["rtsp_analyzer", "rtsp://192.0.2.1/live"] 0 0
        [videoStream ⟨25, 1⟩ 2000000]).1).tail =
      (stdoutChunks (main exampleLib ["a.out", "rtsp://cam.example/ch2"] 7 3
        [videoStream ⟨25, 1⟩ 2000000]).1).tail :=
  (report_independent_of_url exampleLib "rtsp_analyzer" "rtsp://192.0.2.1/live" "a.out"
    "rtsp://cam.example/ch2" 0 0 7 3 [videoStream ⟨25, 1⟩ 2000000]
    (by decide) (by decide) (by decide) (by decide)).2.2.1

end RtspAnalyzer
